import Mathlib

/-!
Verification development for the tcg-scanman repository.

The repository has two Python scripts:

* `src/create-pokemon-pdf.py` — the mat layout planner: it places a card
  outline at the page center and four ArUco markers at fixed corner offsets.
* `src/scad-matrix-generator.py` — the bit-matrix extractor: it renders a
  dictionary marker as an 8x8 grayscale image, crops the 1-cell border, and
  thresholds pixels (`pixel < 128` becomes bit 1) to emit OpenSCAD matrices.

Physical millimeter quantities are embedded as rationals; grayscale images
as lists of rows of natural-number pixel values.  The external ArUco marker
dictionary (an excluded collaborator in the design) is modelled as an
abstract table of square 8x8 images keyed by integer id.
-/

namespace TcgScanman

/-! ## Marker dictionary model (external collaborator) -/

/-- Modelled from the spec: the external ArUco marker dictionary
(`aruco.getPredefinedDictionary`), an opaque immutable table keyed by
integer identifier `0 .. size-1`, each entry a square bit image with a
1-cell border around a 6x6 interior (8x8 pixels for the supported
`DICT_ARUCO_MIP_36h12` family, 250 entries). -/
structure MarkerDictionary where
  name : String
  size : ℕ
  table : ℕ → List (List ℕ)
  square8 : ∀ id : ℕ, (table id).length = 8 ∧ ∀ row ∈ table id, row.length = 8

/-- Error raised when a marker id is outside the dictionary's valid range. -/
inductive MarkerError where
  | InvalidMarkerId
deriving DecidableEq

/-- Modelled from the spec: the external dictionary lookup / rendering
primitive (`aruco.drawMarker` / `aruco.generateImageMarker`), which returns
the canonical square bit image for a valid id and fails for an id outside
`0 ≤ id < size`. -/
def lookupMarker (d : MarkerDictionary) (id : ℤ) : Except MarkerError (List (List ℕ)) :=
  if 0 ≤ id ∧ id < (d.size : ℤ) then Except.ok (d.table id.toNat)
  else Except.error MarkerError.InvalidMarkerId

/-! ## Bit-matrix extractor (src/scad-matrix-generator.py) -/

/-- Crop to the inner 6x6 grid, removing the 1-pixel border:
`inner_grid = img[1:7, 1:7]` (src/scad-matrix-generator.py line 18). -/
def inner_grid (img : List (List ℕ)) : List (List ℕ) :=
  ((img.drop 1).take 6).map (fun row => (row.drop 1).take 6)

/-- Threshold of one grayscale pixel: `(pixel < 128)` becomes 1, else 0
(src/scad-matrix-generator.py line 24). -/
def toBit (p : ℕ) : ℕ := if p < 128 then 1 else 0

/-- Convert the cropped grid to 0/1: `bits = (inner_grid < 128).astype(int)`
(src/scad-matrix-generator.py line 24). -/
def bits (g : List (List ℕ)) : List (List ℕ) :=
  g.map (List.map toBit)

/-- The composite extractor of the spec: look up the marker image for `id`
and return the thresholded interior (loop body of
src/scad-matrix-generator.py lines 11-24). -/
def extract (d : MarkerDictionary) (id : ℤ) : Except MarkerError (List (List ℕ)) :=
  (lookupMarker d id).map (fun img => bits (inner_grid img))

/-- Dictionary name used by src/scad-matrix-generator.py line 6:
`aruco.getPredefinedDictionary(aruco.DICT_ARUCO_MIP_36h12)`. -/
def aruco_dict_name : String := "DICT_ARUCO_MIP_36h12"

/-- Marker ids iterated by src/scad-matrix-generator.py line 11:
`for id in [0, 1, 2, 3]`. -/
def scad_ids : List ℤ := [0, 1, 2, 3]

/-! ## Mat layout planner (src/create-pokemon-pdf.py) -/

/-- Layout configuration; in the source these are the module constants
`CARD_WIDTH_MM`, `CARD_HEIGHT_MM`, `MARKER_SIZE_MM`, `GAP_MM`
(src/create-pokemon-pdf.py lines 11-14). -/
structure LayoutSpec where
  card_width_mm : ℚ
  card_height_mm : ℚ
  marker_size_mm : ℚ
  gap_mm : ℚ
deriving DecidableEq

/-- Error named by the spec for a non-positive layout field. -/
inductive LayoutError where
  | InvalidLayoutSpec
deriving DecidableEq

/-- A marker placement: id plus center relative to the page center. -/
structure PlacedMarker where
  id : ℤ
  center : ℚ × ℚ
deriving DecidableEq

/-- The card outline: centered at the page center with the given size. -/
structure CardOutline where
  center : ℚ × ℚ
  width_mm : ℚ
  height_mm : ℚ
deriving DecidableEq

/-- Horizontal offset from the page center to each marker center:
`x_offset = (CARD_WIDTH_MM / 2 + GAP_MM + MARKER_SIZE_MM / 2) * mm`
(src/create-pokemon-pdf.py line 65; the `* mm` factor is the external
unit conversion, so the embedding stays in millimeters). -/
def x_offset (s : LayoutSpec) : ℚ :=
  s.card_width_mm / 2 + s.gap_mm + s.marker_size_mm / 2

/-- Vertical offset from the page center to each marker center
(src/create-pokemon-pdf.py line 66). -/
def y_offset (s : LayoutSpec) : ℚ :=
  s.card_height_mm / 2 + s.gap_mm + s.marker_size_mm / 2

/-- Marker ids placed on the mat: `marker_ids = [0, 1, 2, 3]`
(src/create-pokemon-pdf.py line 61). -/
def marker_ids : List ℤ := [0, 1, 2, 3]

/-- Corner positions in source order TL, TR, BR, BL
(src/create-pokemon-pdf.py lines 68-73). -/
def positions (s : LayoutSpec) : List (ℚ × ℚ) :=
  [(-(x_offset s), y_offset s),
   (x_offset s, y_offset s),
   (x_offset s, -(y_offset s)),
   (-(x_offset s), -(y_offset s))]

/-- The zip of ids with positions performed by the placement loop
(src/create-pokemon-pdf.py line 77: `zip(marker_ids, positions)`). -/
def placedMarkers (s : LayoutSpec) : List PlacedMarker :=
  ((marker_ids).zip (positions s)).map (fun p => ⟨p.1, p.2⟩)

/-- The card outline drawn by `create_mat_pdf`: a rectangle of the card's
size centered at the page center (src/create-pokemon-pdf.py line 50), so
its center relative to the page center is the origin. -/
def cardOutline (s : LayoutSpec) : CardOutline :=
  ⟨(0, 0), s.card_width_mm, s.card_height_mm⟩

/-- The planner: `create_mat_pdf` computes the outline and the four marker
placements unconditionally — src/create-pokemon-pdf.py lines 35-97 contain
no check on the configuration values, so the function always succeeds; the
`Except` result type records the absence of an error path. -/
def plan (s : LayoutSpec) : Except LayoutError (CardOutline × List PlacedMarker) :=
  Except.ok (cardOutline s, placedMarkers s)

/-- Module constant `MARKER_SIZE_MM = 20` (src/create-pokemon-pdf.py line 11). -/
def MARKER_SIZE_MM : ℚ := 20

/-- Module constant `CARD_WIDTH_MM = 63.5` (src/create-pokemon-pdf.py line 12). -/
def CARD_WIDTH_MM : ℚ := 63.5

/-- Module constant `CARD_HEIGHT_MM = 88.9` (src/create-pokemon-pdf.py line 13). -/
def CARD_HEIGHT_MM : ℚ := 88.9

/-- Module constant `GAP_MM = 10` (src/create-pokemon-pdf.py line 14). -/
def GAP_MM : ℚ := 10

/-- Dictionary name used by src/create-pokemon-pdf.py line 18:
`DICT_ID = aruco.DICT_ARUCO_MIP_36h12`. -/
def DICT_ID : String := "DICT_ARUCO_MIP_36h12"

/-- The layout built from the module constants of src/create-pokemon-pdf.py. -/
def defaultSpec : LayoutSpec :=
  ⟨CARD_WIDTH_MM, CARD_HEIGHT_MM, MARKER_SIZE_MM, GAP_MM⟩

/-- A layout whose every field is non-positive, used to probe validation. -/
def badSpec : LayoutSpec := ⟨-1, -1, -1, -1⟩

/-- Axis-aligned closed bounding box, in millimeters relative to the page
center. -/
structure Box where
  xmin : ℚ
  xmax : ℚ
  ymin : ℚ
  ymax : ℚ
deriving DecidableEq

/-- Membership of a point in a closed box. -/
def Box.memP (b : Box) (p : ℚ × ℚ) : Prop :=
  b.xmin ≤ p.1 ∧ p.1 ≤ b.xmax ∧ b.ymin ≤ p.2 ∧ p.2 ≤ b.ymax

/-- Two boxes are disjoint when no point lies in both. -/
def Box.DisjointP (a b : Box) : Prop :=
  ∀ p : ℚ × ℚ, ¬(a.memP p ∧ b.memP p)

/-- Bounding box of a placed marker image: `drawImage` draws the square of
side `marker_size_mm` centered at the marker position
(src/create-pokemon-pdf.py lines 84-91). -/
def markerBox (s : LayoutSpec) (pm : PlacedMarker) : Box :=
  ⟨pm.center.1 - s.marker_size_mm / 2, pm.center.1 + s.marker_size_mm / 2,
   pm.center.2 - s.marker_size_mm / 2, pm.center.2 + s.marker_size_mm / 2⟩

/-- Bounding box of the card outline rectangle drawn centered at the page
center (src/create-pokemon-pdf.py line 50). -/
def cardBox (s : LayoutSpec) : Box :=
  ⟨-(s.card_width_mm / 2), s.card_width_mm / 2,
   -(s.card_height_mm / 2), s.card_height_mm / 2⟩

/-- A box grown by `g` on all four sides. -/
def Box.expand (b : Box) (g : ℚ) : Box :=
  ⟨b.xmin - g, b.xmax + g, b.ymin - g, b.ymax + g⟩

/-- A sample 250-entry dictionary whose every entry is the all-black
(pixel value 0) 8x8 image; used to instantiate universally quantified
theorems at a concrete dictionary. -/
def allBlackDict : MarkerDictionary where
  name := "DICT_ARUCO_MIP_36h12"
  size := 250
  table := fun _ => List.replicate 8 (List.replicate 8 0)
  square8 := by
    intro id
    refine ⟨by simp, ?_⟩
    intro row hr
    rw [List.eq_of_mem_replicate hr]
    simp

/-- A sample 250-entry dictionary whose every entry is the all-white
(pixel value 255) 8x8 image. -/
def allWhiteDict : MarkerDictionary where
  name := "DICT_ARUCO_MIP_36h12"
  size := 250
  table := fun _ => List.replicate 8 (List.replicate 8 255)
  square8 := by
    intro id
    refine ⟨by simp, ?_⟩
    intro row hr
    rw [List.eq_of_mem_replicate hr]
    simp

/-- The `generate_marker` function of src/create-pokemon-pdf.py lines 21-32:
it looks up the dictionary selected by `DICT_ID` through the external
provider and returns the canonical marker image for `id`. -/
def generate_marker (provider : String → MarkerDictionary) (id : ℤ) :
    Except MarkerError (List (List ℕ)) :=
  lookupMarker (provider DICT_ID) id

/-- The per-id matrix emitted by src/scad-matrix-generator.py: extraction
from the dictionary selected by `aruco_dict_name` (lines 6 and 11-24). -/
def scad_matrix (provider : String → MarkerDictionary) (id : ℤ) :
    Except MarkerError (List (List ℕ)) :=
  extract (provider aruco_dict_name) id

/-! ## Helper lemmas -/

lemma Box.disjointP_of_x_lt {a b : Box} (h : a.xmax < b.xmin) : a.DisjointP b := by
  rintro p ⟨⟨_, ha, _, _⟩, ⟨hb, _, _, _⟩⟩
  linarith

lemma Box.disjointP_of_lt_x {a b : Box} (h : b.xmax < a.xmin) : a.DisjointP b := by
  rintro p ⟨⟨ha, _, _, _⟩, ⟨_, hb, _, _⟩⟩
  linarith

lemma Box.disjointP_of_y_lt {a b : Box} (h : a.ymax < b.ymin) : a.DisjointP b := by
  rintro p ⟨⟨_, _, _, ha⟩, ⟨_, _, hb, _⟩⟩
  linarith

lemma Box.disjointP_of_lt_y {a b : Box} (h : b.ymax < a.ymin) : a.DisjointP b := by
  rintro p ⟨⟨_, _, hb, _⟩, ⟨_, _, _, ha⟩⟩
  linarith

lemma extract_ok (d : MarkerDictionary) (id : ℤ)
    (h0 : 0 ≤ id) (hlt : id < (d.size : ℤ)) :
    extract d id = Except.ok (bits (inner_grid (d.table id.toNat))) := by
  unfold extract lookupMarker
  rw [if_pos ⟨h0, hlt⟩]
  rfl

/-! ## Claim theorems -/

/-- C1: for every LayoutSpec with all-positive fields, each placed marker
center's offset from the origin is, independently per axis,
half card dimension + gap + half marker size (width horizontally, height
vertically); for the default configuration
(card 63.5x88.9 mm, marker 20 mm, gap 10 mm) the horizontal offset is
exactly 51.75 mm, the vertical offset exactly 64.45 mm, and the
PlacedMarker for ID 0 has center (-51.75, 64.45). -/
theorem plan_offset_formula :
    (∀ s : LayoutSpec, 0 < s.card_width_mm → 0 < s.card_height_mm →
      0 < s.marker_size_mm → 0 < s.gap_mm →
      ∀ pm ∈ placedMarkers s,
        |pm.center.1| = s.card_width_mm / 2 + s.gap_mm + s.marker_size_mm / 2 ∧
        |pm.center.2| = s.card_height_mm / 2 + s.gap_mm + s.marker_size_mm / 2) ∧
    x_offset defaultSpec = 51.75 ∧
    y_offset defaultSpec = 64.45 ∧
    (placedMarkers defaultSpec).head? = some ⟨0, (-(51.75 : ℚ), 64.45)⟩ := by
  refine ⟨?_, ?_, ?_, ?_⟩
  · intro s hw hh hm hg pm hpm
    have hx : 0 < x_offset s := by unfold x_offset; linarith
    have hy : 0 < y_offset s := by unfold y_offset; linarith
    simp only [placedMarkers, marker_ids, positions, List.zip_cons_cons, List.zip_nil_right,
      List.map_cons, List.map_nil, List.mem_cons, List.not_mem_nil, or_false] at hpm
    rcases hpm with h | h | h | h <;> subst h <;>
      refine ⟨?_, ?_⟩ <;>
      simp only [abs_neg] <;>
      (try rw [abs_of_pos hx]) <;> (try rw [abs_of_pos hy]) <;> rfl
  · norm_num [x_offset, defaultSpec, CARD_WIDTH_MM, GAP_MM, MARKER_SIZE_MM]
  · norm_num [y_offset, defaultSpec, CARD_HEIGHT_MM, GAP_MM, MARKER_SIZE_MM]
  · norm_num [placedMarkers, marker_ids, positions, x_offset, y_offset, defaultSpec,
      CARD_WIDTH_MM, CARD_HEIGHT_MM, GAP_MM, MARKER_SIZE_MM]

/-- Witness for C1: the hypotheses hold at the default layout and its
top-left marker, and the theorem yields its offset magnitudes there. -/
theorem plan_offset_formula_witness :
    (0 < defaultSpec.card_width_mm ∧ 0 < defaultSpec.card_height_mm ∧
     0 < defaultSpec.marker_size_mm ∧ 0 < defaultSpec.gap_mm ∧
     (⟨0, (-(x_offset defaultSpec), y_offset defaultSpec)⟩ : PlacedMarker) ∈
       placedMarkers defaultSpec) ∧
    (|(-(x_offset defaultSpec))| =
       defaultSpec.card_width_mm / 2 + defaultSpec.gap_mm + defaultSpec.marker_size_mm / 2 ∧
     |y_offset defaultSpec| =
       defaultSpec.card_height_mm / 2 + defaultSpec.gap_mm + defaultSpec.marker_size_mm / 2) :=
  ⟨⟨by norm_num [defaultSpec, CARD_WIDTH_MM], by norm_num [defaultSpec, CARD_HEIGHT_MM],
    by norm_num [defaultSpec, MARKER_SIZE_MM], by norm_num [defaultSpec, GAP_MM],
    by simp [placedMarkers, marker_ids, positions]⟩,
   plan_offset_formula.1 defaultSpec
     (by norm_num [defaultSpec, CARD_WIDTH_MM])
     (by norm_num [defaultSpec, CARD_HEIGHT_MM])
     (by norm_num [defaultSpec, MARKER_SIZE_MM])
     (by norm_num [defaultSpec, GAP_MM])
     (⟨0, (-(x_offset defaultSpec), y_offset defaultSpec)⟩ : PlacedMarker)
     (by simp [placedMarkers, marker_ids, positions])⟩

/-- C2: for every all-positive LayoutSpec, plan returns the markers in the
fixed clockwise-from-top-left order — ID 0 at signs (-,+), ID 1 at (+,+),
ID 2 at (+,-), ID 3 at (-,-) — and the returned list is the same explicit
value on every call. -/
theorem plan_corner_assignment (s : LayoutSpec)
    (hw : 0 < s.card_width_mm) (hh : 0 < s.card_height_mm)
    (hm : 0 < s.marker_size_mm) (hg : 0 < s.gap_mm) :
    plan s = Except.ok (cardOutline s,
      [⟨0, (-(x_offset s), y_offset s)⟩, ⟨1, (x_offset s, y_offset s)⟩,
       ⟨2, (x_offset s, -(y_offset s))⟩, ⟨3, (-(x_offset s), -(y_offset s))⟩]) ∧
    ∀ pm ∈ placedMarkers s,
      (pm.id = 0 → pm.center.1 < 0 ∧ 0 < pm.center.2) ∧
      (pm.id = 1 → 0 < pm.center.1 ∧ 0 < pm.center.2) ∧
      (pm.id = 2 → 0 < pm.center.1 ∧ pm.center.2 < 0) ∧
      (pm.id = 3 → pm.center.1 < 0 ∧ pm.center.2 < 0) := by
  have hx : 0 < x_offset s := by unfold x_offset; linarith
  have hy : 0 < y_offset s := by unfold y_offset; linarith
  refine ⟨rfl, ?_⟩
  intro pm hpm
  simp only [placedMarkers, marker_ids, positions, List.zip_cons_cons, List.zip_nil_right,
    List.map_cons, List.map_nil, List.mem_cons, List.not_mem_nil, or_false] at hpm
  rcases hpm with h | h | h | h <;> subst h <;>
    refine ⟨fun hid => ?_, fun hid => ?_, fun hid => ?_, fun hid => ?_⟩ <;>
    first
      | (constructor <;> simp <;> linarith)
      | exact absurd hid (by simp)

/-- Witness for C2: the corner assignment at the default layout. -/
theorem plan_corner_assignment_witness :
    (0 < defaultSpec.card_width_mm ∧ 0 < defaultSpec.card_height_mm ∧
     0 < defaultSpec.marker_size_mm ∧ 0 < defaultSpec.gap_mm) ∧
    plan defaultSpec = Except.ok (cardOutline defaultSpec,
      [⟨0, (-(x_offset defaultSpec), y_offset defaultSpec)⟩,
       ⟨1, (x_offset defaultSpec, y_offset defaultSpec)⟩,
       ⟨2, (x_offset defaultSpec, -(y_offset defaultSpec))⟩,
       ⟨3, (-(x_offset defaultSpec), -(y_offset defaultSpec))⟩]) :=
  ⟨⟨by norm_num [defaultSpec, CARD_WIDTH_MM], by norm_num [defaultSpec, CARD_HEIGHT_MM],
    by norm_num [defaultSpec, MARKER_SIZE_MM], by norm_num [defaultSpec, GAP_MM]⟩,
   (plan_corner_assignment defaultSpec
     (by norm_num [defaultSpec, CARD_WIDTH_MM])
     (by norm_num [defaultSpec, CARD_HEIGHT_MM])
     (by norm_num [defaultSpec, MARKER_SIZE_MM])
     (by norm_num [defaultSpec, GAP_MM])).1⟩

/-- C3: for every valid marker id, extract strips exactly the 1-cell
outermost ring of the dictionary's 8x8 image and returns only the interior:
a matrix of exactly 6 rows, each of exactly 6 entries, every entry 0 or 1,
and entry (i, j) of the result comes from pixel (i+1, j+1) of the image. -/
theorem extract_interior_shape (d : MarkerDictionary) (id : ℤ)
    (h0 : 0 ≤ id) (hlt : id < (d.size : ℤ)) :
    ∃ m, extract d id = Except.ok m ∧
      m.length = 6 ∧
      (∀ row ∈ m, row.length = 6) ∧
      (∀ row ∈ m, ∀ b ∈ row, b = 0 ∨ b = 1) ∧
      (∀ i j : ℕ, i < 6 → j < 6 →
        m[i]?.bind (fun row => row[j]?) =
          ((d.table id.toNat)[i + 1]?.bind (fun row => row[j + 1]?)).map toBit) := by
  obtain ⟨hlen, hrows⟩ := d.square8 id.toNat
  refine ⟨bits (inner_grid (d.table id.toNat)), extract_ok d id h0 hlt, ?_, ?_, ?_, ?_⟩
  · simp [bits, inner_grid]
    omega
  · intro row hr
    simp only [bits, List.mem_map] at hr
    obtain ⟨r, hrmem, rfl⟩ := hr
    simp only [inner_grid, List.mem_map] at hrmem
    obtain ⟨r0, hr0, rfl⟩ := hrmem
    have hr0m : r0 ∈ d.table id.toNat :=
      List.mem_of_mem_drop (List.mem_of_mem_take hr0)
    have hl8 := hrows r0 hr0m
    simp [hl8]
  · intro row hr b hb
    simp only [bits, List.mem_map] at hr
    obtain ⟨r, _, rfl⟩ := hr
    simp only [List.mem_map] at hb
    obtain ⟨p, _, rfl⟩ := hb
    unfold toBit
    split <;> simp
  · intro i j hi hj
    simp [bits, inner_grid, List.getElem?_map, List.getElem?_take_of_lt, hi, hj,
      List.getElem?_drop, Option.bind_map, Option.map_bind, Nat.add_comm, Function.comp]

/-- Witness for C3: id 0 is valid in the sample dictionary and extraction
there has the stated shape. -/
theorem extract_interior_shape_witness :
    ((0 : ℤ) ≤ 0 ∧ (0 : ℤ) < (allBlackDict.size : ℤ)) ∧
    (∃ m, extract allBlackDict 0 = Except.ok m ∧
      m.length = 6 ∧
      (∀ row ∈ m, row.length = 6) ∧
      (∀ row ∈ m, ∀ b ∈ row, b = 0 ∨ b = 1) ∧
      (∀ i j : ℕ, i < 6 → j < 6 →
        m[i]?.bind (fun row => row[j]?) =
          ((allBlackDict.table (0 : ℤ).toNat)[i + 1]?.bind
            (fun row => row[j + 1]?)).map toBit)) :=
  ⟨⟨by decide, by decide⟩,
   extract_interior_shape allBlackDict 0 (by decide) (by decide)⟩

/-- C4: extract thresholds grayscale with inverted polarity — a pixel below
128 becomes 1 (foreground/raised) and a pixel at or above 128 becomes 0
(background/recessed) — so an all-foreground interior yields the all-1 6x6
matrix and an all-background interior the all-0 matrix. -/
theorem extract_polarity :
    (∀ p : ℕ, p < 128 → toBit p = 1) ∧
    (∀ p : ℕ, 128 ≤ p → toBit p = 0) ∧
    extract allBlackDict 0 = Except.ok (List.replicate 6 (List.replicate 6 1)) ∧
    extract allWhiteDict 0 = Except.ok (List.replicate 6 (List.replicate 6 0)) := by
  refine ⟨?_, ?_, rfl, rfl⟩
  · intro p hp
    simp [toBit, hp]
  · intro p hp
    simp [toBit, Nat.not_lt.mpr hp]

/-- Witness for C4: the polarity at the concrete pixel values 5 and 200. -/
theorem extract_polarity_witness :
    (5 < 128 ∧ toBit 5 = 1) ∧ (128 ≤ 200 ∧ toBit 200 = 0) :=
  ⟨⟨by decide, extract_polarity.1 5 (by decide)⟩,
   ⟨by decide, extract_polarity.2.1 200 (by decide)⟩⟩

/-- C5: for every all-positive LayoutSpec, the card outline's bounding box
and the four marker bounding boxes are pairwise disjoint, and no marker
center lies inside the card box expanded by the gap. -/
theorem plan_boxes_disjoint (s : LayoutSpec)
    (hw : 0 < s.card_width_mm) (hh : 0 < s.card_height_mm)
    (hm : 0 < s.marker_size_mm) (hg : 0 < s.gap_mm) :
    List.Pairwise Box.DisjointP (cardBox s :: (placedMarkers s).map (markerBox s)) ∧
    ∀ pm ∈ placedMarkers s, ¬ ((cardBox s).expand s.gap_mm).memP pm.center := by
  constructor
  · simp only [placedMarkers, marker_ids, positions, List.zip_cons_cons, List.zip_nil_right,
      List.map_cons, List.map_nil, List.pairwise_cons, List.mem_cons, List.not_mem_nil,
      or_false, forall_eq_or_imp, forall_eq, List.Pairwise.nil, and_true]
    refine ⟨⟨?_, ?_, ?_, ?_⟩, ⟨?_, ?_, ?_⟩, ⟨?_, ?_⟩, ?_, fun a h => h.elim⟩
    · exact Box.disjointP_of_lt_x (by simp only [markerBox, cardBox, x_offset]; linarith)
    · exact Box.disjointP_of_x_lt (by simp only [markerBox, cardBox, x_offset]; linarith)
    · exact Box.disjointP_of_x_lt (by simp only [markerBox, cardBox, x_offset]; linarith)
    · exact Box.disjointP_of_lt_x (by simp only [markerBox, cardBox, x_offset]; linarith)
    · exact Box.disjointP_of_x_lt (by simp only [markerBox, x_offset]; linarith)
    · exact Box.disjointP_of_x_lt (by simp only [markerBox, x_offset]; linarith)
    · exact Box.disjointP_of_lt_y (by simp only [markerBox, y_offset]; linarith)
    · exact Box.disjointP_of_lt_y (by simp only [markerBox, y_offset]; linarith)
    · exact Box.disjointP_of_lt_x (by simp only [markerBox, x_offset]; linarith)
    · exact Box.disjointP_of_lt_x (by simp only [markerBox, x_offset]; linarith)
  · intro pm hpm
    simp only [placedMarkers, marker_ids, positions, List.zip_cons_cons, List.zip_nil_right,
      List.map_cons, List.map_nil, List.mem_cons, List.not_mem_nil, or_false] at hpm
    rcases hpm with h | h | h | h <;> subst h <;>
      rintro ⟨h1, h2, h3, h4⟩ <;>
      simp only [Box.expand, cardBox, x_offset, y_offset] at h1 h2 h3 h4 <;>
      linarith

/-- Witness for C5: box disjointness at the default layout. -/
theorem plan_boxes_disjoint_witness :
    (0 < defaultSpec.card_width_mm ∧ 0 < defaultSpec.card_height_mm ∧
     0 < defaultSpec.marker_size_mm ∧ 0 < defaultSpec.gap_mm) ∧
    List.Pairwise Box.DisjointP
      (cardBox defaultSpec :: (placedMarkers defaultSpec).map (markerBox defaultSpec)) :=
  ⟨⟨by norm_num [defaultSpec, CARD_WIDTH_MM], by norm_num [defaultSpec, CARD_HEIGHT_MM],
    by norm_num [defaultSpec, MARKER_SIZE_MM], by norm_num [defaultSpec, GAP_MM]⟩,
   (plan_boxes_disjoint defaultSpec
     (by norm_num [defaultSpec, CARD_WIDTH_MM])
     (by norm_num [defaultSpec, CARD_HEIGHT_MM])
     (by norm_num [defaultSpec, MARKER_SIZE_MM])
     (by norm_num [defaultSpec, GAP_MM])).1⟩

/-- C6 counterexample: `badSpec` has every field non-positive, yet plan does
not fail with InvalidLayoutSpec — it returns the placements normally, so the
claimed validation does not exist in the code. -/
theorem plan_validation_cex :
    (badSpec.card_width_mm ≤ 0 ∧ badSpec.card_height_mm ≤ 0 ∧
     badSpec.marker_size_mm ≤ 0 ∧ badSpec.gap_mm ≤ 0) ∧
    plan badSpec = Except.ok (cardOutline badSpec, placedMarkers badSpec) ∧
    plan badSpec ≠ Except.error LayoutError.InvalidLayoutSpec :=
  ⟨⟨by norm_num [badSpec], by norm_num [badSpec],
    by norm_num [badSpec], by norm_num [badSpec]⟩,
   rfl, by simp [plan]⟩

/-- C6 amended: plan performs no input validation and has no failure path at
all — for every LayoutSpec, including ones with non-positive fields, it
returns the card outline and the four placements. -/
theorem plan_never_fails :
    ∀ s : LayoutSpec, plan s = Except.ok (cardOutline s, placedMarkers s) :=
  fun _ => rfl

/-- C7: extract fails with InvalidMarkerId exactly when the requested id is
outside 0 ≤ id < dictionary size, with no partial output; every id in range
succeeds, and on a 250-entry dictionary id 250 fails. -/
theorem extract_invalid_id (d : MarkerDictionary) (id : ℤ) :
    (extract d id = Except.error MarkerError.InvalidMarkerId ↔
      ¬(0 ≤ id ∧ id < (d.size : ℤ))) ∧
    ((0 ≤ id ∧ id < (d.size : ℤ)) → ∃ m, extract d id = Except.ok m) ∧
    (d.size = 250 → extract d 250 = Except.error MarkerError.InvalidMarkerId) := by
  refine ⟨?_, ?_, ?_⟩
  · unfold extract lookupMarker
    by_cases h : 0 ≤ id ∧ id < (d.size : ℤ)
    · rw [if_pos h]
      simp [h, Except.map]
    · rw [if_neg h]
      simp [h, Except.map]
  · intro h
    exact ⟨_, extract_ok d id h.1 h.2⟩
  · intro h250
    unfold extract lookupMarker
    rw [if_neg (by rw [h250]; decide)]
    rfl

/-- Witness for C7: on the sample 250-entry dictionary, id 250 fails and
id 0 succeeds. -/
theorem extract_invalid_id_witness :
    (allBlackDict.size = 250 ∧
     extract allBlackDict 250 = Except.error MarkerError.InvalidMarkerId) ∧
    (((0 : ℤ) ≤ 0 ∧ (0 : ℤ) < (allBlackDict.size : ℤ)) ∧
     ∃ m, extract allBlackDict 0 = Except.ok m) :=
  ⟨⟨rfl, (extract_invalid_id allBlackDict 250).2.2 rfl⟩,
   ⟨⟨by decide, by decide⟩,
    (extract_invalid_id allBlackDict 0).2.1 ⟨by decide, by decide⟩⟩⟩

/-- C8: extract is deterministic — two results of extract for the same
dictionary and id are identical. -/
theorem extract_deterministic (d : MarkerDictionary) (id : ℤ)
    (r₁ r₂ : Except MarkerError (List (List ℕ)))
    (h₁ : extract d id = r₁) (h₂ : extract d id = r₂) : r₁ = r₂ :=
  h₁.symm.trans h₂

/-- Witness for C8: determinism instantiated at the sample dictionary
and id 0. -/
theorem extract_deterministic_witness :
    extract allBlackDict 0 = extract allBlackDict 0 :=
  extract_deterministic allBlackDict 0
    (extract allBlackDict 0) (extract allBlackDict 0) rfl rfl

/-- C9: the marker offsets are strictly monotone in each input — increasing
gap or marker size strictly increases both offsets, increasing card width
strictly increases only the horizontal offset, increasing card height
strictly increases only the vertical offset — and the card outline's center
stays at the origin regardless. -/
theorem offsets_strictly_monotone (s : LayoutSpec) (a b : ℚ) (hab : a < b) :
    (x_offset { s with gap_mm := b } > x_offset { s with gap_mm := a } ∧
     y_offset { s with gap_mm := b } > y_offset { s with gap_mm := a }) ∧
    (x_offset { s with marker_size_mm := b } > x_offset { s with marker_size_mm := a } ∧
     y_offset { s with marker_size_mm := b } > y_offset { s with marker_size_mm := a }) ∧
    (x_offset { s with card_width_mm := b } > x_offset { s with card_width_mm := a } ∧
     y_offset { s with card_width_mm := b } = y_offset { s with card_width_mm := a }) ∧
    (y_offset { s with card_height_mm := b } > y_offset { s with card_height_mm := a } ∧
     x_offset { s with card_height_mm := b } = x_offset { s with card_height_mm := a }) ∧
    ∀ t : LayoutSpec, (cardOutline t).center = (0, 0) := by
  refine ⟨⟨?_, ?_⟩, ⟨?_, ?_⟩, ⟨?_, ?_⟩, ⟨?_, ?_⟩, fun t => rfl⟩ <;>
    simp [x_offset, y_offset] <;> linarith

/-- Witness for C9: gap monotonicity at the default layout for gaps 1 < 2. -/
theorem offsets_strictly_monotone_witness :
    (1 : ℚ) < 2 ∧
    x_offset { defaultSpec with gap_mm := 2 } > x_offset { defaultSpec with gap_mm := 1 } :=
  ⟨by norm_num,
   ((offsets_strictly_monotone defaultSpec 1 2 (by norm_num)).1).1⟩

/-- C10: both components reference the same marker dictionary
(ARUCO_MIP_36h12) and the same id set {0,1,2,3}, and for each of those ids
the bit matrix emitted for fabrication is the thresholded interior of the
very marker image the PDF generator places for that id. -/
theorem components_consistent :
    DICT_ID = aruco_dict_name ∧ marker_ids = scad_ids ∧
    ∀ provider : String → MarkerDictionary, ∀ id ∈ marker_ids,
      scad_matrix provider id =
        (generate_marker provider id).map (fun img => bits (inner_grid img)) :=
  ⟨rfl, rfl, fun _ _ _ => rfl⟩

/-- Witness for C10: the consistency fact at id 0 with the sample provider. -/
theorem components_consistent_witness :
    (0 : ℤ) ∈ marker_ids ∧
    scad_matrix (fun _ => allBlackDict) 0 =
      (generate_marker (fun _ => allBlackDict) 0).map (fun img => bits (inner_grid img)) :=
  ⟨by decide, components_consistent.2.2 (fun _ => allBlackDict) 0 (by decide)⟩

end TcgScanman
